import Mathlib

/-!
Shallow embedding of `mainFramework.py` (PV – Battery – Islanded Microgrid
Simulation).  Telemetry returned by the external circuit solver (OpenDSS) is
modelled as explicit inputs: each simulated minute receives a `MinuteEnv`
describing every value the loop reads back from the solver during that minute.
Python floats are modelled as rationals; a possibly-NaN reading is an `RVal`
and a possibly-`None` value an `Option RVal`.
-/

/-- A numeric telemetry value as produced by the solver: either NaN or a real
number (modelled as a rational). -/
inductive RVal where
  | nan : RVal
  | val : ℚ → RVal
deriving DecidableEq

/-- Negation of a telemetry value (used for the PV read `-Powers()[0]`). -/
def RVal.neg : RVal → RVal
  | .nan => .nan
  | .val q => .val (-q)

/-- Embedding of `limit_power` (mainFramework.py lines 149–155): `None` maps
to 0.0, a NaN or a value of magnitude above 1e6 maps to 0.0, anything else
passes through. -/
def limit_power : Option RVal → ℚ
  | none => 0
  | some .nan => 0
  | some (.val q) => if |q| > 1000000 then 0 else q

/-- Embedding of the numeric part of `get_bus_voltage_v` (lines 200–208).
The input is the `VMagAngle()` list for the active bus (`none` when the
solver returns `None`).  A missing or empty list gives 0.0; otherwise the
first entry is taken, and a NaN or a value above 1e4 gives 0.0. -/
def get_bus_voltage_v : Option (List RVal) → ℚ
  | none => 0
  | some [] => 0
  | some (.nan :: _) => 0
  | some (.val v :: _) => if v > 10000 then 0 else v

/-- The Python slice `pw[0:6:2]`: elements at indices 0, 2 and 4. -/
def slice06 : List RVal → List RVal
  | [] => []
  | [a] => [a]
  | [a, _] => [a]
  | [a, _, c] => [a, c]
  | [a, _, c, _] => [a, c]
  | [a, _, c, _, e] => [a, c, e]
  | a :: _ :: c :: _ :: e :: _ :: _ => [a, c, e]

/-- Python `sum` over a list of floats, with NaN propagation. -/
def rsum (l : List RVal) : RVal :=
  l.foldl (fun acc v =>
    match acc, v with
    | .val a, .val b => .val (a + b)
    | _, _ => .nan) (.val 0)

/-- Telemetry available for one read of `Storage.mobilebat`:
whether `SetActiveElement` succeeds, the `%stored` property read (`none`
when the read/parse raises an exception), and the `Powers()` list. -/
structure StorageTelemetry where
  present : Bool
  stored : Option RVal
  powers : List RVal

/-- Embedding of `get_bess_soc_and_power` (lines 211–230).  `soc` defaults to
0.0 and is replaced by the `%stored` read only when the read succeeds and is
not NaN; `p_bat` is `abs(limit_power(sum(pw[0:6:2])))` when the powers list
is non-empty. -/
def get_bess_soc_and_power (st : StorageTelemetry) : ℚ × ℚ :=
  if st.present then
    (match st.stored with
      | some (.val q) => q
      | _ => 0,
     match st.powers with
      | [] => 0
      | _ => |limit_power (some (rsum (slice06 st.powers)))|)
  else (0, 0)

/-- Constant `RESERVE_PCT` (line 46). -/
def RESERVE_PCT : ℚ := 20
/-- Constant `SOC_HYST` (line 47). -/
def SOC_HYST : ℚ := 0.5
/-- Constant `TARGET_LOAD_KW` (line 48). -/
def TARGET_LOAD_KW : ℚ := 15
/-- Constant `PV_CHARGE_KW` (line 49). -/
def PV_CHARGE_KW : ℚ := 10
/-- Constant `PV_CHARGE_MIN_KW` (line 50). -/
def PV_CHARGE_MIN_KW : ℚ := 2
/-- Constant `SOC_MAX_CHARGE` (line 51). -/
def SOC_MAX_CHARGE : ℚ := 95
/-- Constant `MINUTES` (line 42). -/
def MINUTES : ℕ := 1440

/-- Python `a or b` on floats: `b` when `a` is falsy (0.0), else `a`.  Used
for `(SOC_HYST or 0.0)` at line 250. -/
def pyOr (a b : ℚ) : ℚ := if a = 0 then b else a

/-- The state-of-charge value used for a dispatch decision (lines 245–247):
the fresh telemetry read when valid (> 0), else `prev_soc` when > 0, else
the fixed default 40.0. -/
def soc_used (st : StorageTelemetry) (prev_soc : ℚ) : ℚ :=
  let soc := (get_bess_soc_and_power st).1
  if soc ≤ 0 then (if prev_soc > 0 then prev_soc else 40) else soc

/-- Battery operating states commanded by the controller. -/
inductive BessState where
  | IDLING : BessState
  | DISCHARGING : BessState
  | CHARGING : BessState
deriving DecidableEq

/-- One `edit Storage.mobilebat State=... kW=...` command. -/
structure BessCommand where
  state : BessState
  kw : ℚ
deriving DecidableEq

/-- Embedding of `bess_control_step` (lines 233–266).  Returns the ordered
list of storage commands issued to the solver during the call, and the
state of charge returned by the Python function. -/
def bess_control_step (is_island : Bool) (pv_kw prev_soc : ℚ) (enabled : Bool)
    (st : StorageTelemetry) : List BessCommand × ℚ :=
  if !enabled then ([⟨.IDLING, 0⟩], prev_soc)
  else
    let soc := soc_used st prev_soc
    if is_island then
      let soc_stop := RESERVE_PCT + pyOr SOC_HYST 0
      if soc ≤ soc_stop then ([⟨.IDLING, 0⟩], soc)
      else ([⟨.DISCHARGING, max 0 (TARGET_LOAD_KW - pv_kw)⟩], soc)
    else
      let cmds : List BessCommand :=
        if pv_kw > PV_CHARGE_MIN_KW ∧ soc < SOC_MAX_CHARGE then
          [⟨.CHARGING, PV_CHARGE_KW⟩]
        else [⟨.IDLING, 0⟩]
      let cmds := if soc ≥ SOC_MAX_CHARGE then cmds ++ [⟨.IDLING, 0⟩] else cmds
      (cmds, soc)

/-- Embedding of `get_pv_kw` (lines 180–185): 0.0 unless the PV element is
addressable and enabled, in which case `limit_power(-Powers()[0])`. -/
def get_pv_kw (pvActive : Bool) (pvPower0 : RVal) : ℚ :=
  if pvActive then limit_power (some (RVal.neg pvPower0)) else 0

/-- One home's contribution to `get_total_load_kw` (lines 188–197): 0 when
the load element is not addressable or its powers list is empty, else
`abs(limit_power(sum(pw[0:6:2])))`. -/
def home_load : Option (List RVal) → ℚ
  | none => 0
  | some [] => 0
  | some pw => |limit_power (some (rsum (slice06 pw)))|

/-- Embedding of `get_total_load_kw` over the ten homes. -/
def get_total_load_kw (loadPw : Fin 10 → Option (List RVal)) : ℚ :=
  ((List.ofFn loadPw).map home_load).sum

/-- Everything the simulation loop reads back from the solver during one
minute, after the scheduled events and the solve for that minute. -/
structure MinuteEnv where
  island : Bool
  pvActive : Bool
  pvPower0 : RVal
  stCtrl : StorageTelemetry
  stPost : StorageTelemetry
  homeVm : Fin 10 → Option (List RVal)
  loadPw : Fin 10 → Option (List RVal)

/-- Embedding of the `ScenarioResults` record (lines 271–284); homes are
indexed by their position in `HOMES`. -/
structure ScenarioResults where
  minutes : ℕ
  pv_kw : List ℚ
  bat_kw : List ℚ
  soc_pct : List ℚ
  load_kw : List ℚ
  supply_kw : List ℚ
  island_flag : List ℕ
  voltages : Fin 10 → List ℚ
  stability_minutes : ℕ

/-- Embedding of `init_results` (lines 287–299). -/
def init_results (minutes : ℕ) : ScenarioResults :=
  { minutes := minutes
    pv_kw := []
    bat_kw := []
    soc_pct := []
    load_kw := []
    supply_kw := []
    island_flag := []
    voltages := fun _ => []
    stability_minutes := 0 }

/-- Loop-carried state of `run_scenario`: the results record plus the
`prev_soc` local variable. -/
structure SimState where
  res : ScenarioResults
  prev_soc : ℚ

/-- One iteration of the `run_scenario` loop body (lines 394–432). -/
def run_minute (enabled : Bool) (e : MinuteEnv) (s : SimState) : SimState :=
  let island := e.island
  let pv_kw := get_pv_kw e.pvActive e.pvPower0
  let soc_after := (bess_control_step island pv_kw s.prev_soc enabled e.stCtrl).2
  let rd := get_bess_soc_and_power e.stPost
  let soc := if rd.1 > 0 then rd.1 else soc_after
  let bat_kw := rd.2
  { res :=
      { minutes := s.res.minutes
        island_flag := s.res.island_flag ++ [if island then 1 else 0]
        pv_kw := s.res.pv_kw ++ [pv_kw]
        soc_pct := s.res.soc_pct ++ [soc]
        bat_kw := s.res.bat_kw ++ [bat_kw]
        stability_minutes := s.res.stability_minutes +
          (if island ∧ soc > RESERVE_PCT + SOC_HYST then 1 else 0)
        voltages := fun i => s.res.voltages i ++ [get_bus_voltage_v (e.homeVm i)]
        load_kw := s.res.load_kw ++ [get_total_load_kw e.loadPw]
        supply_kw := s.res.supply_kw ++ [max 0 (pv_kw + bat_kw)] }
    prev_soc := soc }

/-- The first `n` iterations of the `run_scenario` loop, starting from
`init_results MINUTES` and `prev_soc = 40.0` (line 392). -/
def run_n (enabled : Bool) (env : ℕ → MinuteEnv) : ℕ → SimState
  | 0 => ⟨init_results MINUTES, 40⟩
  | n + 1 => run_minute enabled (env n) (run_n enabled env n)

/-- Embedding of `run_scenario` (lines 368–434): the results record after
all `MINUTES` iterations. -/
def run_scenario (enabled : Bool) (env : ℕ → MinuteEnv) : ScenarioResults :=
  (run_n enabled env MINUTES).res

/-- Closed form of one minute's update of `prev_soc`. -/
def recSoc (enabled : Bool) (e : MinuteEnv) (prev : ℚ) : ℚ :=
  let pv := get_pv_kw e.pvActive e.pvPower0
  let socA := (bess_control_step e.island pv prev enabled e.stCtrl).2
  let rd1 := (get_bess_soc_and_power e.stPost).1
  if rd1 > 0 then rd1 else socA

/-- Closed form of the `prev_soc` variable entering minute `n`. -/
def socSeq (enabled : Bool) (env : ℕ → MinuteEnv) : ℕ → ℚ
  | 0 => 40
  | n + 1 => recSoc enabled (env n) (socSeq enabled env n)

/-- Unfolding of one loop step. -/
theorem run_n_succ (b : Bool) (env : ℕ → MinuteEnv) (n : ℕ) :
    run_n b env (n + 1) = run_minute b (env n) (run_n b env n) := rfl

/-- Closed forms for the loop-carried state of charge, the island flags, the
recorded state-of-charge series and the stability counter. -/
theorem run_n_state (b : Bool) (env : ℕ → MinuteEnv) (n : ℕ) :
    (run_n b env n).prev_soc = socSeq b env n ∧
    (run_n b env n).res.island_flag =
      (List.range n).map (fun t => if (env t).island then 1 else 0) ∧
    (run_n b env n).res.soc_pct =
      (List.range n).map (fun t => socSeq b env (t + 1)) ∧
    (run_n b env n).res.stability_minutes =
      List.countP
        (fun t => decide ((env t).island ∧
          socSeq b env (t + 1) > RESERVE_PCT + SOC_HYST))
        (List.range n) := by
  induction n with
  | zero => exact ⟨rfl, rfl, rfl, rfl⟩
  | succ n ih =>
    obtain ⟨h1, h2, h3, h4⟩ := ih
    refine ⟨?_, ?_, ?_, ?_⟩
    · simp only [run_n, run_minute, h1, socSeq, recSoc]
    · simp only [run_n, run_minute, h2, List.range_succ, List.map_append,
        List.map_cons, List.map_nil]
    · simp only [run_n, run_minute, h1, h3, List.range_succ, List.map_append,
        List.map_cons, List.map_nil, socSeq, recSoc]
    · simp only [run_n, run_minute, h1, h4, List.range_succ,
        List.countP_append, List.countP_singleton, socSeq, recSoc]
      congr 1
      by_cases h : (env n).island ∧
          recSoc b (env n) (socSeq b env n) > RESERVE_PCT + SOC_HYST
      · simp only [recSoc] at h
        simp [h, recSoc]
      · simp only [recSoc] at h
        simp [h, recSoc]

/-- Every channel of the results record has exactly `n` entries after `n`
iterations. -/
theorem run_n_len (b : Bool) (env : ℕ → MinuteEnv) (n : ℕ) :
    (run_n b env n).res.pv_kw.length = n ∧
    (run_n b env n).res.bat_kw.length = n ∧
    (run_n b env n).res.soc_pct.length = n ∧
    (run_n b env n).res.load_kw.length = n ∧
    (run_n b env n).res.supply_kw.length = n ∧
    (run_n b env n).res.island_flag.length = n ∧
    ∀ i : Fin 10, ((run_n b env n).res.voltages i).length = n := by
  induction n with
  | zero => exact ⟨rfl, rfl, rfl, rfl, rfl, rfl, fun _ => rfl⟩
  | succ n ih =>
    obtain ⟨h1, h2, h3, h4, h5, h6, h7⟩ := ih
    refine ⟨?_, ?_, ?_, ?_, ?_, ?_, fun i => ?_⟩ <;>
      simp [run_n, run_minute, h1, h2, h3, h4, h5, h6, h7]

/-- The supply channel is pointwise `max 0 (pv + bat)` of the PV and battery
channels. -/
theorem run_n_supply (b : Bool) (env : ℕ → MinuteEnv) (n : ℕ) :
    (run_n b env n).res.supply_kw =
      List.zipWith (fun p q => max 0 (p + q))
        (run_n b env n).res.pv_kw (run_n b env n).res.bat_kw := by
  induction n with
  | zero => rfl
  | succ n ih =>
    have hlen := run_n_len b env n
    simp only [run_n, run_minute, ih]
    rw [List.zipWith_append _ _ _ _ _ (by rw [hlen.1, hlen.2.1])]
    rfl

/-- Indexing a mapped range with `getElem!`. -/
theorem getElem_bang_range_map {α : Type} [Inhabited α] (f : ℕ → α) {n t : ℕ}
    (h : t < n) : ((List.range n).map f)[t]! = f t := by
  have hl : t < ((List.range n).map f).length := by simpa using h
  rw [getElem!_pos ((List.range n).map f) t hl]
  simp

/-- A storage telemetry state whose `%stored` read succeeds with value `q`. -/
def stRead (q : ℚ) : StorageTelemetry := ⟨true, some (.val q), []⟩

/-- A storage telemetry state whose `%stored` read raises (absent value). -/
def stFail : StorageTelemetry := ⟨true, none, []⟩

/-- A solver trace in which every telemetry read fails and no island forms. -/
def env0 : ℕ → MinuteEnv := fun _ =>
  { island := false, pvActive := false, pvPower0 := .val 0,
    stCtrl := stFail, stPost := stFail,
    homeVm := fun _ => none, loadPw := fun _ => none }

/-- A solver trace in which the controller's decision read returns 50 but the
post-dispatch read returns 60. -/
def env7 : ℕ → MinuteEnv := fun _ =>
  { island := false, pvActive := false, pvPower0 := .val 0,
    stCtrl := stRead 50, stPost := stRead 60,
    homeVm := fun _ => none, loadPw := fun _ => none }

/-- The island stop threshold written in the source, `RESERVE_PCT +
(SOC_HYST or 0.0)`, equals `RESERVE_PCT + SOC_HYST`. -/
theorem soc_stop_eq : RESERVE_PCT + pyOr SOC_HYST 0 = RESERVE_PCT + SOC_HYST := by
  norm_num [pyOr, SOC_HYST]

/-- The state of charge used for a decision is positive whenever the previous
one was. -/
theorem soc_used_pos (st : StorageTelemetry) (prev : ℚ) (h : 0 < prev) :
    0 < soc_used st prev := by
  unfold soc_used
  by_cases hr : (get_bess_soc_and_power st).1 ≤ 0
  · simp [hr, h]
  · simpa [hr] using not_le.mp hr

/-- The state of charge returned by the controller is positive whenever the
previous one was. -/
theorem bess_control_step_snd_pos (isl : Bool) (pv prev : ℚ) (b : Bool)
    (st : StorageTelemetry) (h : 0 < prev) :
    0 < (bess_control_step isl pv prev b st).2 := by
  cases b with
  | false => simpa [bess_control_step] using h
  | true =>
    cases isl with
    | true =>
      by_cases h1 : soc_used st prev ≤ RESERVE_PCT + pyOr SOC_HYST 0 <;>
        simpa [bess_control_step, h1] using soc_used_pos st prev h
    | false =>
      by_cases h1 : pv > PV_CHARGE_MIN_KW ∧ soc_used st prev < SOC_MAX_CHARGE <;>
        by_cases h2 : soc_used st prev ≥ SOC_MAX_CHARGE <;>
        simpa [bess_control_step, h1, h2] using soc_used_pos st prev h

/-- The recorded state of charge for a minute is positive whenever the carried
one was. -/
theorem recSoc_pos (b : Bool) (e : MinuteEnv) (prev : ℚ) (h : 0 < prev) :
    0 < recSoc b e prev := by
  unfold recSoc
  by_cases hr : (get_bess_soc_and_power e.stPost).1 > 0
  · simp [hr]
  · simpa [hr] using
      bess_control_step_snd_pos e.island (get_pv_kw e.pvActive e.pvPower0) prev b e.stCtrl h

/-- C4: with `enabled=false` the controller issues exactly one `IDLING 0`
command and returns `prev_soc` unchanged, for every island state, PV value,
previous state of charge and storage telemetry (no telemetry is read). -/
theorem disabled_passthrough_spec (isl : Bool) (pv prev : ℚ)
    (st : StorageTelemetry) :
    bess_control_step isl pv prev false st = ([⟨.IDLING, 0⟩], prev) := by
  simp [bess_control_step]

/-- C2: with `enabled=true` and `is_island=true`, letting `soc` be the state
of charge used for the decision, the controller idles at 0 kW when
`soc ≤ RESERVE_PCT + SOC_HYST` and otherwise discharges at exactly
`max 0 (TARGET_LOAD_KW - pv_kw)`; in particular a fresh read of 50 with
`pv_kw = 4` gives a setpoint of exactly 11 kW, and a fresh read of 19 idles
regardless of `pv_kw`. -/
theorem island_dispatch_spec (pv prev : ℚ) (st : StorageTelemetry) :
    (soc_used st prev ≤ RESERVE_PCT + SOC_HYST →
      bess_control_step true pv prev true st =
        ([⟨.IDLING, 0⟩], soc_used st prev)) ∧
    (soc_used st prev > RESERVE_PCT + SOC_HYST →
      bess_control_step true pv prev true st =
        ([⟨.DISCHARGING, max 0 (TARGET_LOAD_KW - pv)⟩], soc_used st prev)) ∧
    bess_control_step true 4 prev true (stRead 50) =
      ([⟨.DISCHARGING, 11⟩], 50) ∧
    bess_control_step true pv prev true (stRead 19) = ([⟨.IDLING, 0⟩], 19) := by
  refine ⟨?_, ?_, ?_, ?_⟩
  · intro h
    have hstop : soc_used st prev ≤ RESERVE_PCT + pyOr SOC_HYST 0 := by
      rwa [soc_stop_eq]
    simp [bess_control_step, hstop]
  · intro h
    have hstop : ¬ soc_used st prev ≤ RESERVE_PCT + pyOr SOC_HYST 0 := by
      rw [soc_stop_eq]; exact not_le.mpr h
    simp [bess_control_step, hstop]
  · norm_num [bess_control_step, soc_used, get_bess_soc_and_power, stRead,
      pyOr, RESERVE_PCT, SOC_HYST, TARGET_LOAD_KW]
  · norm_num [bess_control_step, soc_used, get_bess_soc_and_power, stRead,
      pyOr, RESERVE_PCT, SOC_HYST]

/-- A fresh storage read of 50 exceeds the island stop threshold. -/
theorem soc_used_stRead50_gt : soc_used (stRead 50) 0 > RESERVE_PCT + SOC_HYST := by
  norm_num [soc_used, get_bess_soc_and_power, stRead, RESERVE_PCT, SOC_HYST]

/-- Witness for C2 at a fresh read of 50 with 4 kW of PV. -/
theorem island_dispatch_spec_witness :
    soc_used (stRead 50) 0 > RESERVE_PCT + SOC_HYST ∧
    bess_control_step true 4 0 true (stRead 50) =
      ([⟨.DISCHARGING, max 0 (TARGET_LOAD_KW - 4)⟩], soc_used (stRead 50) 0) :=
  ⟨soc_used_stRead50_gt,
   (island_dispatch_spec 4 0 (stRead 50)).2.1 soc_used_stRead50_gt⟩

/-- C3: with `enabled=true` and `is_island=false`, the final storage command
is `CHARGING` at `PV_CHARGE_KW` exactly when `pv_kw > PV_CHARGE_MIN_KW` and
the state of charge used is below `SOC_MAX_CHARGE`, and `IDLING` at 0 kW
otherwise; at or above `SOC_MAX_CHARGE` the final command is `IDLING` at 0 kW
regardless of `pv_kw`. -/
theorem grid_charge_spec (pv prev : ℚ) (st : StorageTelemetry) :
    (pv > PV_CHARGE_MIN_KW ∧ soc_used st prev < SOC_MAX_CHARGE →
      (bess_control_step false pv prev true st).1.getLast? =
        some ⟨.CHARGING, PV_CHARGE_KW⟩) ∧
    (¬(pv > PV_CHARGE_MIN_KW ∧ soc_used st prev < SOC_MAX_CHARGE) →
      (bess_control_step false pv prev true st).1.getLast? =
        some ⟨.IDLING, 0⟩) ∧
    (soc_used st prev ≥ SOC_MAX_CHARGE →
      (bess_control_step false pv prev true st).1.getLast? =
        some ⟨.IDLING, 0⟩) := by
  have hidle : ¬(pv > PV_CHARGE_MIN_KW ∧ soc_used st prev < SOC_MAX_CHARGE) →
      (bess_control_step false pv prev true st).1.getLast? =
        some ⟨.IDLING, 0⟩ := by
    intro hc
    by_cases hs : soc_used st prev ≥ SOC_MAX_CHARGE
    · simp [bess_control_step, hc, hs, List.getLast?_concat]
    · simp [bess_control_step, hc, hs]
  refine ⟨?_, hidle, fun hs => hidle ?_⟩
  · intro hc
    have hs : ¬ soc_used st prev ≥ SOC_MAX_CHARGE := not_le.mpr hc.2
    simp [bess_control_step, hc, hs]
  · rintro ⟨_, h2⟩
    exact absurd h2 (not_lt.mpr hs)

/-- With 5 kW of PV and a fresh storage read of 90, the charging branch
condition holds. -/
theorem grid_charge_hyp :
    (5 : ℚ) > PV_CHARGE_MIN_KW ∧ soc_used (stRead 90) 0 < SOC_MAX_CHARGE := by
  norm_num [soc_used, get_bess_soc_and_power, stRead, PV_CHARGE_MIN_KW,
    SOC_MAX_CHARGE]

/-- Witness for C3 at 5 kW of PV and a fresh read of 90. -/
theorem grid_charge_spec_witness :
    ((5 : ℚ) > PV_CHARGE_MIN_KW ∧ soc_used (stRead 90) 0 < SOC_MAX_CHARGE) ∧
    (bess_control_step false 5 0 true (stRead 90)).1.getLast? =
      some ⟨.CHARGING, PV_CHARGE_KW⟩ :=
  ⟨grid_charge_hyp, (grid_charge_spec 5 0 (stRead 90)).1 grid_charge_hyp⟩

/-- C5: an invalid fresh state-of-charge read (absent or NaN gives 0, and any
read ≤ 0 counts as invalid) makes the decision fall back to `prev_soc` when
positive, else to the fixed default 40; the value the controller returns when
enabled is always the value so obtained. -/
theorem soc_fallback_spec (prev : ℚ) (st : StorageTelemetry) :
    (st.stored = none ∨ st.stored = some .nan →
      (get_bess_soc_and_power st).1 = 0) ∧
    ((get_bess_soc_and_power st).1 ≤ 0 →
      soc_used st prev = if prev > 0 then prev else 40) ∧
    (∀ isl : Bool, ∀ pv : ℚ,
      (bess_control_step isl pv prev true st).2 = soc_used st prev) := by
  refine ⟨?_, ?_, ?_⟩
  · intro h
    rcases h with h | h <;>
      by_cases hp : st.present <;>
      simp [get_bess_soc_and_power, hp, h]
  · intro h
    simp [soc_used, h]
  · intro isl pv
    cases isl with
    | false =>
      by_cases h1 : pv > PV_CHARGE_MIN_KW ∧ soc_used st prev < SOC_MAX_CHARGE <;>
        by_cases h2 : soc_used st prev ≥ SOC_MAX_CHARGE <;>
        simp [bess_control_step, h1, h2]
    | true =>
      by_cases h1 : soc_used st prev ≤ RESERVE_PCT + pyOr SOC_HYST 0 <;>
        simp [bess_control_step, h1]

/-- A storage read that raises yields a non-positive state of charge. -/
theorem stFail_read_nonpos : (get_bess_soc_and_power stFail).1 ≤ 0 := by
  norm_num [get_bess_soc_and_power, stFail]

/-- Witness for C5 at a failing read with `prev_soc = 0`. -/
theorem soc_fallback_spec_witness :
    (get_bess_soc_and_power stFail).1 ≤ 0 ∧
    soc_used stFail 0 = if (0 : ℚ) > 0 then (0 : ℚ) else 40 :=
  ⟨stFail_read_nonpos, (soc_fallback_spec 0 stFail).2.1 stFail_read_nonpos⟩

/-- C6 counterexample: 100000 is at or below the power guard's bound 1e6 and
passes `limit_power` unchanged, yet the voltage guard `get_bus_voltage_v`
maps it to 0 — the two guards do not apply one uniform rule with bound 1e6. -/
theorem guard_uniformity_counterexample :
    (100000 : ℚ) ≤ 1000000 ∧
    limit_power (some (.val 100000)) = 100000 ∧
    get_bus_voltage_v (some [.val 100000]) = 0 := by
  refine ⟨by norm_num, ?_, ?_⟩ <;> norm_num [limit_power, get_bus_voltage_v]

/-- C6 (amended): each guard clamps NaN/missing input to 0 and passes sane
values through, but with its own bound — `limit_power` clamps when
`|value| > 1e6`, while `get_bus_voltage_v` clamps its first entry when
`value > 1e4` (one-sided). -/
theorem numeric_guards_spec (q : ℚ) (rest : List RVal) :
    limit_power none = 0 ∧
    limit_power (some .nan) = 0 ∧
    (|q| > 1000000 → limit_power (some (.val q)) = 0) ∧
    (|q| ≤ 1000000 → limit_power (some (.val q)) = q) ∧
    get_bus_voltage_v none = 0 ∧
    get_bus_voltage_v (some []) = 0 ∧
    get_bus_voltage_v (some (.nan :: rest)) = 0 ∧
    (q > 10000 → get_bus_voltage_v (some (.val q :: rest)) = 0) ∧
    (q ≤ 10000 → get_bus_voltage_v (some (.val q :: rest)) = q) := by
  refine ⟨rfl, rfl, ?_, ?_, rfl, rfl, rfl, ?_, ?_⟩
  · intro h; simp [limit_power, h]
  · intro h; simp [limit_power, not_lt.mpr h]
  · intro h; simp [get_bus_voltage_v, h]
  · intro h; simp [get_bus_voltage_v, not_lt.mpr h]

/-- The magnitude of 5 is within the power guard's bound. -/
theorem abs_five_le : |(5 : ℚ)| ≤ 1000000 := by norm_num

/-- Witness for the amended C6: 5 passes the power guard unchanged. -/
theorem numeric_guards_spec_witness :
    |(5 : ℚ)| ≤ 1000000 ∧ limit_power (some (.val 5)) = 5 :=
  ⟨abs_five_le, (numeric_guards_spec 5 []).2.2.2.1 abs_five_le⟩

/-- C7 counterexample: under the trace `env7`, the controller call of minute 0
returns 50, but the `prev_soc` entering minute 1 is 60 (the post-dispatch
telemetry re-read), so the controller's returned value is not what is carried
forward. -/
theorem prev_soc_carry_counterexample :
    (bess_control_step (env7 0).island
        (get_pv_kw (env7 0).pvActive (env7 0).pvPower0)
        (run_n true env7 0).prev_soc true (env7 0).stCtrl).2 = 50 ∧
    (run_n true env7 1).prev_soc = 60 := by
  constructor <;>
    norm_num [run_n, run_minute, env7, bess_control_step, soc_used,
      get_bess_soc_and_power, stRead, pyOr, get_pv_kw, init_results,
      RESERVE_PCT, SOC_HYST, TARGET_LOAD_KW, PV_CHARGE_MIN_KW, SOC_MAX_CHARGE]

/-- C7 (amended): the value carried forward as `prev_soc` into minute `n+1`
is the post-dispatch telemetry read of minute `n` when that read is positive,
and only otherwise the value returned by the dispatch controller; it is also
exactly the value recorded in `soc_pct` for minute `n`. -/
theorem prev_soc_carry_spec (b : Bool) (env : ℕ → MinuteEnv) (n : ℕ) :
    (run_n b env (n + 1)).prev_soc =
      (if (get_bess_soc_and_power (env n).stPost).1 > 0
       then (get_bess_soc_and_power (env n).stPost).1
       else (bess_control_step (env n).island
              (get_pv_kw (env n).pvActive (env n).pvPower0)
              (run_n b env n).prev_soc b (env n).stCtrl).2) ∧
    (run_n b env (n + 1)).res.soc_pct.getLast? =
      some ((run_n b env (n + 1)).prev_soc) := by
  constructor
  · rfl
  · simp [run_n, run_minute, List.getLast?_concat]

/-- Indexing a `zipWith` with `getElem!` inside both bounds. -/
theorem getElem_bang_zipWith {α β γ : Type} [Inhabited α] [Inhabited β]
    [Inhabited γ] (f : α → β → γ) (l1 : List α) (l2 : List β) (t : ℕ)
    (h1 : t < l1.length) (h2 : t < l2.length) :
    (List.zipWith f l1 l2)[t]! = f l1[t]! l2[t]! := by
  have hz : t < (List.zipWith f l1 l2).length := by
    rw [List.length_zipWith]; exact lt_min h1 h2
  rw [getElem!_pos (List.zipWith f l1 l2) t hz, getElem!_pos l1 t h1,
    getElem!_pos l2 t h2]
  exact List.getElem_zipWith

/-- C8: the supply channel is pointwise `max 0 (pv + bat)` of the PV and
battery channels of the same run, hence never negative. -/
theorem supply_channel_spec (b : Bool) (env : ℕ → MinuteEnv) :
    (run_scenario b env).supply_kw =
      List.zipWith (fun p q => max 0 (p + q))
        (run_scenario b env).pv_kw (run_scenario b env).bat_kw ∧
    ∀ n t : ℕ, t < n →
      (run_n b env n).res.supply_kw[t]! =
        max 0 ((run_n b env n).res.pv_kw[t]! +
          (run_n b env n).res.bat_kw[t]!) ∧
      0 ≤ (run_n b env n).res.supply_kw[t]! := by
  constructor
  · exact run_n_supply b env MINUTES
  · intro n t ht
    have hz := run_n_supply b env n
    have hlen := run_n_len b env n
    have h1 : t < (run_n b env n).res.pv_kw.length := by rw [hlen.1]; exact ht
    have h2 : t < (run_n b env n).res.bat_kw.length := by rw [hlen.2.1]; exact ht
    rw [hz, getElem_bang_zipWith _ _ _ t h1 h2]
    exact ⟨rfl, le_max_left 0 _⟩

/-- Witness for C8 at minute 0 of a one-step run over `env0`. -/
theorem supply_channel_spec_witness :
    0 < 1 ∧
    ((run_n false env0 1).res.supply_kw[0]! =
        max (0 : ℚ) ((run_n false env0 1).res.pv_kw[0]! +
          (run_n false env0 1).res.bat_kw[0]!) ∧
      0 ≤ (run_n false env0 1).res.supply_kw[0]!) :=
  ⟨by decide, (supply_channel_spec false env0).2 1 0 (by decide)⟩

/-- C9: after `n` loop iterations every per-minute channel — PV, battery,
state of charge, load, supply, island flag and each of the ten per-home
voltage series — has exactly `n` entries; in particular each has exactly
1440 entries after the complete run. -/
theorem channel_length_spec (b : Bool) (env : ℕ → MinuteEnv) :
    (∀ n : ℕ,
      (run_n b env n).res.pv_kw.length = n ∧
      (run_n b env n).res.bat_kw.length = n ∧
      (run_n b env n).res.soc_pct.length = n ∧
      (run_n b env n).res.load_kw.length = n ∧
      (run_n b env n).res.supply_kw.length = n ∧
      (run_n b env n).res.island_flag.length = n ∧
      ∀ i : Fin 10, ((run_n b env n).res.voltages i).length = n) ∧
    ((run_scenario b env).pv_kw.length = 1440 ∧
      (run_scenario b env).bat_kw.length = 1440 ∧
      (run_scenario b env).soc_pct.length = 1440 ∧
      (run_scenario b env).load_kw.length = 1440 ∧
      (run_scenario b env).supply_kw.length = 1440 ∧
      (run_scenario b env).island_flag.length = 1440 ∧
      ∀ i : Fin 10, ((run_scenario b env).voltages i).length = 1440) :=
  ⟨run_n_len b env, run_n_len b env MINUTES⟩

/-- C10: the carried `prev_soc` is strictly positive after every number of
minutes, and every value recorded in `soc_pct` is strictly positive, for
every telemetry trace — even one on which every read fails. -/
theorem soc_positive_spec (b : Bool) (env : ℕ → MinuteEnv) (n : ℕ) :
    0 < (run_n b env n).prev_soc ∧
    ∀ x ∈ (run_n b env n).res.soc_pct, 0 < x := by
  induction n with
  | zero =>
    refine ⟨by norm_num [run_n], ?_⟩
    intro x hx
    simp [run_n, init_results] at hx
  | succ n ih =>
    obtain ⟨hp, hmem⟩ := ih
    have hnew : 0 < recSoc b (env n) (run_n b env n).prev_soc :=
      recSoc_pos b (env n) _ hp
    have hps : (run_n b env (n + 1)).prev_soc =
        recSoc b (env n) (run_n b env n).prev_soc := rfl
    have hsoc : (run_n b env (n + 1)).res.soc_pct =
        (run_n b env n).res.soc_pct ++
          [recSoc b (env n) (run_n b env n).prev_soc] := rfl
    constructor
    · rw [hps]; exact hnew
    · intro x hx
      rw [hsoc] at hx
      rcases List.mem_append.mp hx with h | h
      · exact hmem x h
      · rw [List.mem_singleton.mp h]
        exact hnew

/-- The default 40 is recorded at minute 0 of a one-step run on the failing
trace. -/
theorem mem_soc_env0 : (40 : ℚ) ∈ (run_n false env0 1).res.soc_pct := by
  have h : (run_n false env0 1).res.soc_pct = [40] := by
    norm_num [run_n, run_minute, env0, stFail, bess_control_step,
      get_bess_soc_and_power, get_pv_kw, init_results]
  rw [h]
  exact List.mem_singleton.mpr rfl

/-- Witness for C10 on the all-reads-fail trace after one minute. -/
theorem soc_positive_spec_witness :
    0 < (run_n false env0 1).prev_soc ∧ (0 : ℚ) < 40 :=
  ⟨(soc_positive_spec false env0 1).1,
   (soc_positive_spec false env0 1).2 40 mem_soc_env0⟩

/-- C1: the reserve-plus-hysteresis threshold is 20.5; at every minute `t`
of the 1440-step loop the stability counter grows by exactly 1 when the
recorded island flag for `t` is 1 and the recorded post-dispatch state of
charge for `t` strictly exceeds the threshold, and by 0 otherwise; and the
final counter equals the number of minutes satisfying both conditions. -/
theorem stability_counter_spec (b : Bool) (env : ℕ → MinuteEnv) :
    RESERVE_PCT + SOC_HYST = (20.5 : ℚ) ∧
    (∀ t, t < MINUTES →
      (run_n b env (t + 1)).res.stability_minutes =
        (run_n b env t).res.stability_minutes +
          (if (run_scenario b env).island_flag[t]! = 1 ∧
              (run_scenario b env).soc_pct[t]! > RESERVE_PCT + SOC_HYST
           then 1 else 0)) ∧
    (run_scenario b env).stability_minutes =
      List.countP
        (fun p => decide (p.1 = 1 ∧ p.2 > RESERVE_PCT + SOC_HYST))
        ((run_scenario b env).island_flag.zip (run_scenario b env).soc_pct) := by
  have hN := run_n_state b env MINUTES
  refine ⟨by norm_num [RESERVE_PCT, SOC_HYST], ?_, ?_⟩
  · intro t ht
    have hflag : (run_scenario b env).island_flag[t]! =
        (if (env t).island then 1 else 0) := by
      rw [run_scenario, hN.2.1, getElem_bang_range_map _ ht]
    have hsoc : (run_scenario b env).soc_pct[t]! = socSeq b env (t + 1) := by
      rw [run_scenario, hN.2.2.1, getElem_bang_range_map _ ht]
    have hcond : ((if (env t).island then (1 : ℕ) else 0) = 1 ∧
        socSeq b env (t + 1) > RESERVE_PCT + SOC_HYST) ↔
        ((env t).island ∧ socSeq b env (t + 1) > RESERVE_PCT + SOC_HYST) := by
      by_cases h : (env t).island <;> simp [h]
    rw [(run_n_state b env (t + 1)).2.2.2, (run_n_state b env t).2.2.2, hflag,
      hsoc, List.range_succ, List.countP_append, List.countP_singleton]
    simp only [hcond, decide_eq_true_eq]
  · rw [run_scenario, hN.2.1, hN.2.2.1, hN.2.2.2, List.zip_map',
      List.countP_map]
    congr 1
    funext t
    by_cases h : (env t).island
    · simp [h, Function.comp]
    · simp [h, Function.comp]

/-- Witness for C1 at minute 0 of the all-reads-fail trace. -/
theorem stability_counter_spec_witness :
    0 < MINUTES ∧
    (run_n false env0 1).res.stability_minutes =
      (run_n false env0 0).res.stability_minutes +
        (if (run_scenario false env0).island_flag[0]! = 1 ∧
            (run_scenario false env0).soc_pct[0]! > RESERVE_PCT + SOC_HYST
         then 1 else 0) :=
  ⟨by decide, (stability_counter_spec false env0).2.1 0 (by decide)⟩
